import Mathlib

/-
Shallow embedding of the prompt CRUD backend (backend/main.py).

The persistent store (one SQL table of Prompt rows behind an ORM session)
is modelled as a list of records in insertion order.  Timestamps
(datetime.utcnow) are modelled as natural numbers supplied to each handler
as a parameter "now"; the auto-incremented primary key is supplied as
"newId".  HTTPException(404) and HTTPException(400) become the ApiError
values notFound and conflict; an exception that the handler does not
catch (and which therefore propagates to the framework as a generic
server error) becomes serverError.  Each mutating handler returns the
store after the request together with its HTTP-level result.
-/

namespace PromptApi

/-- Row of the prompts table (class Prompt, backend/main.py lines 19-28):
id, category (unique key), title, prompt body, is_active flag,
created_at and updated_at timestamps. -/
structure Prompt where
  id : Nat
  category : String
  title : String
  prompt : String
  is_active : Bool
  created_at : Nat
  updated_at : Nat
deriving DecidableEq, Repr

/-- The table of prompt rows, in insertion order. -/
abbrev Store := List Prompt

/-- Request body of POST /prompts (class PromptCreate / PromptBase,
lines 31-38): category, title, prompt, and is_active defaulting to true
when the client omits it. -/
structure PromptCreate where
  category : String
  title : String
  prompt : String
  is_active : Bool := true
deriving DecidableEq, Repr

/-- Request body of PUT /prompts/X (class PromptUpdate, lines 40-43):
every field optional; none models a field absent from the request body
(pydantic dict with exclude_unset drops it). -/
structure PromptUpdate where
  title : Option String := none
  prompt : Option String := none
  is_active : Option Bool := none
deriving DecidableEq, Repr

/-- HTTP-level failure of a handler: notFound is HTTPException 404,
conflict is HTTPException 400, serverError is an exception the handler
does not catch (surfaced by the framework as a generic server error). -/
inductive ApiError where
  | notFound
  | conflict
  | serverError
deriving DecidableEq, Repr

/-- The query pattern db.query(Prompt).filter(Prompt.category == c).first():
first row whose category equals c. -/
def firstByCategory (s : Store) (c : String) : Option Prompt :=
  s.find? (fun r => r.category == c)

/-- ORM in-place mutation of a fetched row: replace the first row whose
category is c by f applied to it, leaving every other row untouched. -/
def updateFirst (s : Store) (c : String) (f : Prompt → Prompt) : Store :=
  match s with
  | [] => []
  | r :: rs => if r.category == c then f r :: rs else r :: updateFirst rs c f

/-- GET /prompts/X (get_prompt_by_category, lines 211-217): first row with
that category, 404 when none.  The handler only queries, so it takes and
returns no store. -/
def get_prompt_by_category (s : Store) (category : String) : Except ApiError Prompt :=
  match firstByCategory s category with
  | none => Except.error ApiError.notFound
  | some p => Except.ok p

/-- Python dict assignment d[k] = v on an association list: overwrite the
first binding of k in place, or append a new binding at the end. -/
def assocSet (d : List (String × String × String)) (k : String) (v : String × String) :
    List (String × String × String) :=
  match d with
  | [] => [(k, v.1, v.2)]
  | (k0, v0) :: rest =>
    if k0 == k then (k0, v.1, v.2) :: rest else (k0, v0) :: assocSet rest k v

/-- GET /prompts (get_prompts, lines 192-204): filter the active rows and
build a dict from category to (title, prompt) by successive assignment. -/
def get_prompts (s : Store) : List (String × String × String) :=
  (s.filter (fun r => r.is_active)).foldl
    (fun d r => assocSet d r.category (r.title, r.prompt)) []

/-- GET /prompts/all (get_all_prompts, lines 206-209): every row,
active and inactive. -/
def get_all_prompts (s : Store) : Store :=
  s

/-- POST /prompts (create_prompt, lines 219-231): 400 conflict when a row
with the category already exists (active or not); otherwise insert a new
row with the supplied fields, the assigned id and both timestamps set to
now, and return it. -/
def create_prompt (s : Store) (req : PromptCreate) (newId now : Nat) :
    Store × Except ApiError Prompt :=
  match firstByCategory s req.category with
  | some _ => (s, Except.error ApiError.conflict)
  | none =>
    let p : Prompt :=
      { id := newId, category := req.category, title := req.title,
        prompt := req.prompt, is_active := req.is_active,
        created_at := now, updated_at := now }
    (s ++ [p], Except.ok p)

/-- POST /prompts with an interleaving between the existence check and the
commit: the check runs against sCheck while the insert commits against
sCommit (another request may have inserted in between).  The category
column is declared unique (line 23), so a commit against a store already
holding the category raises an integrity error; create_prompt has no
try/except, so that error propagates uncaught (serverError) and the
failed transaction leaves the store as it was. -/
def create_prompt_committed (sCheck sCommit : Store) (req : PromptCreate) (newId now : Nat) :
    Store × Except ApiError Prompt :=
  match firstByCategory sCheck req.category with
  | some _ => (sCommit, Except.error ApiError.conflict)
  | none =>
    match firstByCategory sCommit req.category with
    | some _ => (sCommit, Except.error ApiError.serverError)
    | none =>
      let p : Prompt :=
        { id := newId, category := req.category, title := req.title,
          prompt := req.prompt, is_active := req.is_active,
          created_at := now, updated_at := now }
      (sCommit ++ [p], Except.ok p)

/-- POST /prompts with the two timestamp column defaults kept separate:
the source computes created_at and updated_at through two distinct
datetime.utcnow column-default calls at insert time (lines 27-28), and
nothing forces the two readings to be equal.  tc and tu are those two
clock readings; create_prompt is the special case tc = tu. -/
def create_prompt_timed (s : Store) (req : PromptCreate) (newId tc tu : Nat) :
    Store × Except ApiError Prompt :=
  match firstByCategory s req.category with
  | some _ => (s, Except.error ApiError.conflict)
  | none =>
    let p : Prompt :=
      { id := newId, category := req.category, title := req.title,
        prompt := req.prompt, is_active := req.is_active,
        created_at := tc, updated_at := tu }
    (s ++ [p], Except.ok p)

/-- Field application of PUT /prompts/X (lines 240-244): setattr for each
field present in the request body, then updated_at = utcnow
unconditionally.  Absent fields keep the previous value; id, category and
created_at are never touched. -/
def applyUpdate (u : PromptUpdate) (r : Prompt) (now : Nat) : Prompt :=
  { r with
    title := u.title.getD r.title,
    prompt := u.prompt.getD r.prompt,
    is_active := u.is_active.getD r.is_active,
    updated_at := now }

/-- PUT /prompts/X (update_prompt, lines 233-247): 404 when no row has
the category; otherwise mutate the first such row with applyUpdate and
return the updated row. -/
def update_prompt (s : Store) (category : String) (u : PromptUpdate) (now : Nat) :
    Store × Except ApiError Prompt :=
  match firstByCategory s category with
  | none => (s, Except.error ApiError.notFound)
  | some r =>
    (updateFirst s category (fun x => applyUpdate u x now),
     Except.ok (applyUpdate u r now))

/-- DELETE /prompts/X (delete_prompt, lines 249-259): soft delete; 404 when
the category is absent, otherwise set is_active to false, refresh
updated_at and return the success message. -/
def delete_prompt (s : Store) (category : String) (now : Nat) :
    Store × Except ApiError String :=
  match firstByCategory s category with
  | none => (s, Except.error ApiError.notFound)
  | some _ =>
    (updateFirst s category (fun r => { r with is_active := false, updated_at := now }),
     Except.ok "Prompt deactivated successfully")

/-- POST /prompts/X/activate (activate_prompt, lines 261-271): 404 when the
category is absent, otherwise set is_active to true, refresh updated_at
and return the success message. -/
def activate_prompt (s : Store) (category : String) (now : Nat) :
    Store × Except ApiError String :=
  match firstByCategory s category with
  | none => (s, Except.error ApiError.notFound)
  | some _ =>
    (updateFirst s category (fun r => { r with is_active := true, updated_at := now }),
     Except.ok "Prompt activated successfully")

/-- The hard-coded seed data of init_default_prompts (lines 91-164):
category, title and multi-line prompt body of the six defaults, in
source order. -/
def default_prompts : List (String × String × String) :=
  [ ("roadmap", "Product Roadmap Analysis",
     "Analyze the repository data and provide strategic roadmap recommendations. Focus on:\n1. Feature gaps based on commit patterns\n2. Technical debt that should be prioritized\n3. Performance improvements needed\n4. User experience enhancements\n5. Scalability considerations\n\nProvide 3-5 roadmap items with titles, descriptions, priority levels (High/Medium/Low), and estimated effort."),
    ("vulnerabilities", "Security & Vulnerability Assessment",
     "Analyze the repository for potential security issues and vulnerabilities. Look for:\n1. Security anti-patterns in commit messages\n2. Dependencies that might have known vulnerabilities\n3. Code patterns that could lead to security issues\n4. Missing security best practices\n5. Authentication and authorization concerns\n\nProvide 3-5 security items with titles, descriptions, severity levels (Critical/High/Medium/Low), and specific recommendations."),
    ("teamAssignments", "Team Assignment Recommendations",
     "Based on the repository structure and commit patterns, recommend team assignments. Consider:\n1. Code ownership patterns from commit history\n2. Technology stack expertise requirements\n3. Feature areas that need dedicated ownership\n4. Cross-functional collaboration opportunities\n5. Skill development needs\n\nProvide 3-5 assignment recommendations with specific tasks, suggested team member roles, and reasoning."),
    ("newFeatures", "New Feature Suggestions",
     "Analyze the current functionality and suggest valuable new features. Consider:\n1. User pain points that could be addressed\n2. Market opportunities based on the tech stack\n3. Integration possibilities with other tools\n4. Performance and scalability improvements\n5. User experience enhancements\n\nProvide 3-5 feature suggestions with titles, descriptions, impact assessment (High/Medium/Low), and implementation complexity."),
    ("technicalDebt", "Technical Debt Analysis",
     "Identify technical debt and code quality issues. Look for:\n1. Code duplication patterns\n2. Outdated dependencies or patterns\n3. Performance bottlenecks\n4. Maintainability issues\n5. Testing gaps\n\nProvide 3-5 technical debt items with specific issues, descriptions, priority levels, and effort estimates."),
    ("performance", "Performance Optimization",
     "Analyze potential performance issues and optimization opportunities. Consider:\n1. Database query optimization needs\n2. Caching opportunities\n3. Frontend performance improvements\n4. API optimization potential\n5. Resource usage optimization\n\nProvide 3-5 performance recommendations with specific areas, descriptions, and optimization strategies.") ]

/-- Rows the seeding inserts on an empty store: one per default, ids
assigned by the auto-increment key starting at 1, both timestamps
defaulting to the insertion time. -/
def seedRecords (now : Nat) : Store :=
  default_prompts.enum.map (fun e =>
    { id := e.1 + 1, category := e.2.1, title := e.2.2.1, prompt := e.2.2.2,
      is_active := true, created_at := now, updated_at := now })

/-- Startup seeding (init_default_prompts, lines 84-176).  If any row
exists the function returns at once.  Otherwise the six defaults are
added and committed in a single transaction: when the commit fails
(commitFails), the except-branch logs the error and rolls the whole
transaction back, so the store is unchanged; on success the six rows are
inserted and a success line is printed.  The second component is the
console log; the function is total, so a seeding failure never escapes
to crash startup. -/
def init_default_prompts (s : Store) (now : Nat) (commitFails : Bool) :
    Store × List String :=
  if s.length > 0 then (s, [])
  else if commitFails then (s, ["Error initializing default prompts"])
  else (s ++ seedRecords now, ["Default prompts initialized successfully!"])

/-- Concrete active row used to instantiate the theorems. -/
def wRecord : Prompt :=
  { id := 1, category := "roadmap", title := "T", prompt := "P",
    is_active := true, created_at := 0, updated_at := 0 }

/-- Concrete inactive row used to instantiate the theorems. -/
def wInactive : Prompt :=
  { id := 1, category := "x", title := "T", prompt := "P",
    is_active := false, created_at := 0, updated_at := 0 }

/-- Concrete create request whose category clashes with wRecord. -/
def wReq : PromptCreate :=
  { category := "roadmap", title := "T2", prompt := "P2" }

/-- Concrete create request whose category clashes with wInactive. -/
def wReqX : PromptCreate :=
  { category := "x", title := "T", prompt := "P" }

/-- Row produced by a successful create whose two timestamp defaults
were evaluated at clock readings 3 and then 4. -/
def wTimedRec : Prompt :=
  { id := 1, category := "x", title := "T", prompt := "P",
    is_active := true, created_at := 3, updated_at := 4 }

theorem firstByCategory_eq_none (s : Store) (c : String) :
    firstByCategory s c = none ↔ ∀ r ∈ s, r.category ≠ c := by
  simp [firstByCategory, List.find?_eq_none]

theorem firstByCategory_append_cons (s₁ : List Prompt) (r : Prompt) (s₂ : List Prompt)
    (c : String) (h₁ : ∀ x ∈ s₁, x.category ≠ c) (hc : r.category = c) :
    firstByCategory (s₁ ++ r :: s₂) c = some r := by
  induction s₁ with
  | nil => simp [firstByCategory, List.find?_cons_of_pos, hc]
  | cons a as ih =>
    have ha : (a.category == c) = false := by simpa using h₁ a (by simp)
    rw [List.cons_append]
    show List.find? _ (a :: (as ++ r :: s₂)) = some r
    rw [List.find?_cons_of_neg _ (by simp [ha])]
    exact ih (fun x hx => h₁ x (by simp [hx]))

theorem updateFirst_append_cons (s₁ : List Prompt) (r : Prompt) (s₂ : List Prompt)
    (c : String) (f : Prompt → Prompt) (h₁ : ∀ x ∈ s₁, x.category ≠ c) (hc : r.category = c) :
    updateFirst (s₁ ++ r :: s₂) c f = s₁ ++ f r :: s₂ := by
  induction s₁ with
  | nil => simp [updateFirst, hc]
  | cons a as ih =>
    have ha : (a.category == c) = false := by simpa using h₁ a (by simp)
    simp [updateFirst, ha, ih (fun x hx => h₁ x (by simp [hx]))]

/-- C1: creating with an already-stored category (active or inactive)
fails with conflict and leaves the store unchanged, so stores with
pairwise-distinct categories stay that way; creating with a fresh
category appends exactly one row carrying the request fields, the
assigned id and both timestamps set to now, and returns that row. -/
theorem create_prompt_unique_category (s : Store) (req : PromptCreate) (newId now : Nat) :
    ((∃ r ∈ s, r.category = req.category) →
       create_prompt s req newId now = (s, Except.error ApiError.conflict))
  ∧ ((∀ r ∈ s, r.category ≠ req.category) →
       ∃ p : Prompt,
         create_prompt s req newId now = (s ++ [p], Except.ok p) ∧
         p.category = req.category ∧ p.title = req.title ∧
         p.prompt = req.prompt ∧ p.is_active = req.is_active ∧
         p.id = newId ∧ p.created_at = now ∧ p.updated_at = now)
  ∧ ((s.map Prompt.category).Nodup →
       (((create_prompt s req newId now).1).map Prompt.category).Nodup) := by
  refine ⟨?_, ?_, ?_⟩
  · rintro ⟨r, hr, hrc⟩
    cases h : firstByCategory s req.category with
    | none =>
      exact absurd hrc ((firstByCategory_eq_none s req.category).mp h r hr)
    | some q => simp [create_prompt, h]
  · intro h
    have hn : firstByCategory s req.category = none :=
      (firstByCategory_eq_none s req.category).mpr h
    exact ⟨{ id := newId, category := req.category, title := req.title,
             prompt := req.prompt, is_active := req.is_active,
             created_at := now, updated_at := now },
           by simp [create_prompt, hn], rfl, rfl, rfl, rfl, rfl, rfl, rfl⟩
  · intro hnd
    cases h : firstByCategory s req.category with
    | none =>
      have hmem : req.category ∉ s.map Prompt.category := by
        simp only [List.mem_map, not_exists]
        rintro r ⟨hr, hrc⟩
        exact (firstByCategory_eq_none s req.category).mp h r hr hrc
      simp [create_prompt, h, List.nodup_append, hnd, List.disjoint_singleton, hmem]
    | some q => simp [create_prompt, h, hnd]

theorem create_prompt_unique_category_witness :
    create_prompt [wRecord] wReq 2 5 = ([wRecord], Except.error ApiError.conflict) ∧
    (∃ p : Prompt,
       create_prompt [] wReq 1 5 = ([] ++ [p], Except.ok p) ∧
       p.category = wReq.category ∧ p.title = wReq.title ∧
       p.prompt = wReq.prompt ∧ p.is_active = wReq.is_active ∧
       p.id = 1 ∧ p.created_at = 5 ∧ p.updated_at = 5) :=
  ⟨(create_prompt_unique_category [wRecord] wReq 2 5).1
     ⟨wRecord, by simp, by decide⟩,
   (create_prompt_unique_category [] wReq 1 5).2.1 (by simp)⟩

theorem create_prompt_eq_timed (s : Store) (req : PromptCreate) (newId now : Nat) :
    create_prompt s req newId now = create_prompt_timed s req newId now now := by
  cases h : firstByCategory s req.category with
  | none => simp [create_prompt, create_prompt_timed, h]
  | some q => simp [create_prompt, create_prompt_timed, h]

/-- C7 counterexample: the two timestamp column defaults are evaluated
by separate utcnow calls the source never forces to agree; when the
clock reads 3 at the created_at default and 4 at the updated_at default,
the successful create returns a row whose created_at differs from
updated_at, refuting the claimed equality at this concrete input. -/
theorem create_prompt_defaults_counterexample :
    create_prompt_timed [] { category := "x", title := "T", prompt := "P" } 1 3 4
      = ([wTimedRec], Except.ok wTimedRec) ∧
    wTimedRec.created_at ≠ wTimedRec.updated_at := by
  refine ⟨rfl, ?_⟩
  decide

/-- C7 (amended): a successful create whose request body omits the
active flag yields a row with the assigned id and is_active true (the
pydantic default); created_at and updated_at each take their own
column-default clock reading at insert, so they are equal exactly when
those two readings coincide — the code does not force them to agree. -/
theorem create_prompt_timed_defaults (s : Store) (c t p : String) (newId tc tu : Nat)
    (h : ∀ r ∈ s, r.category ≠ c) :
    ∃ rec : Prompt,
      create_prompt_timed s { category := c, title := t, prompt := p } newId tc tu
        = (s ++ [rec], Except.ok rec) ∧
      rec.id = newId ∧ rec.is_active = true ∧
      rec.created_at = tc ∧ rec.updated_at = tu ∧
      (tc = tu → rec.created_at = rec.updated_at) := by
  have hn : firstByCategory s c = none := (firstByCategory_eq_none s c).mpr h
  exact ⟨{ id := newId, category := c, title := t, prompt := p,
           is_active := true, created_at := tc, updated_at := tu },
         by simp [create_prompt_timed, hn], rfl, rfl, rfl, rfl, fun he => he⟩

/-- C2: updating an absent category fails with notFound; updating a
present one rewrites exactly the first row with that category, where the
fields present in the body take the supplied values, absent fields keep
their prior values, id, category and created_at are untouched, and
updated_at is set to now even for an empty body; all other rows are
bit-for-bit unchanged. -/
theorem update_prompt_partial_fields (s : Store) (c : String) (u : PromptUpdate) (now : Nat) :
    ((∀ r ∈ s, r.category ≠ c) →
       update_prompt s c u now = (s, Except.error ApiError.notFound))
  ∧ (∀ s₁ r s₂, s = s₁ ++ r :: s₂ → (∀ x ∈ s₁, x.category ≠ c) → r.category = c →
       ∃ r' : Prompt,
         update_prompt s c u now = (s₁ ++ r' :: s₂, Except.ok r') ∧
         r'.id = r.id ∧ r'.category = r.category ∧ r'.created_at = r.created_at ∧
         r'.updated_at = now ∧ r'.title = u.title.getD r.title ∧
         r'.prompt = u.prompt.getD r.prompt ∧
         r'.is_active = u.is_active.getD r.is_active) := by
  constructor
  · intro h
    have hn := (firstByCategory_eq_none s c).mpr h
    simp [update_prompt, hn]
  · rintro s₁ r s₂ rfl h₁ hc
    have hf := firstByCategory_append_cons s₁ r s₂ c h₁ hc
    have hu := updateFirst_append_cons s₁ r s₂ c (fun x => applyUpdate u x now) h₁ hc
    exact ⟨applyUpdate u r now, by simp [update_prompt, hf, hu],
           rfl, rfl, rfl, rfl, rfl, rfl, rfl⟩

theorem update_prompt_partial_fields_witness :
    update_prompt [wRecord] "missing" { title := some "T2" } 9
      = ([wRecord], Except.error ApiError.notFound) ∧
    (∃ r' : Prompt,
       update_prompt [wRecord] "roadmap" { title := some "T2" } 9
         = ([] ++ r' :: [], Except.ok r') ∧
       r'.id = wRecord.id ∧ r'.category = wRecord.category ∧
       r'.created_at = wRecord.created_at ∧ r'.updated_at = 9 ∧
       r'.title = (some "T2").getD wRecord.title ∧
       r'.prompt = (none : Option String).getD wRecord.prompt ∧
       r'.is_active = (none : Option Bool).getD wRecord.is_active) :=
  ⟨(update_prompt_partial_fields [wRecord] "missing" { title := some "T2" } 9).1 (by decide),
   (update_prompt_partial_fields [wRecord] "roadmap" { title := some "T2" } 9).2
     [] wRecord [] rfl (by simp) (by decide)⟩

/-- C8: deactivate and activate both fail with notFound on an absent
category; deactivating a row that is already inactive succeeds with the
message and changes nothing but updated_at (is_active stays false), and
activating a row that is already active succeeds and changes nothing but
updated_at (is_active stays true). -/
theorem deactivate_activate_idempotent (s : Store) (s₁ : List Prompt) (r : Prompt)
    (s₂ : List Prompt) (c : String) (t : Nat) :
    ((∀ x ∈ s, x.category ≠ c) →
       delete_prompt s c t = (s, Except.error ApiError.notFound) ∧
       activate_prompt s c t = (s, Except.error ApiError.notFound))
  ∧ ((∀ x ∈ s₁, x.category ≠ c) → r.category = c → r.is_active = false →
       delete_prompt (s₁ ++ r :: s₂) c t
         = (s₁ ++ { r with updated_at := t } :: s₂,
            Except.ok "Prompt deactivated successfully"))
  ∧ ((∀ x ∈ s₁, x.category ≠ c) → r.category = c → r.is_active = true →
       activate_prompt (s₁ ++ r :: s₂) c t
         = (s₁ ++ { r with updated_at := t } :: s₂,
            Except.ok "Prompt activated successfully")) := by
  refine ⟨?_, ?_, ?_⟩
  · intro h
    have hn := (firstByCategory_eq_none s c).mpr h
    exact ⟨by simp [delete_prompt, hn], by simp [activate_prompt, hn]⟩
  · intro h₁ hc hia
    have hf := firstByCategory_append_cons s₁ r s₂ c h₁ hc
    have hu := updateFirst_append_cons s₁ r s₂ c
      (fun x => { x with is_active := false, updated_at := t }) h₁ hc
    have hr : ({ r with is_active := false, updated_at := t } : Prompt)
        = { r with updated_at := t } := by
      cases r
      simp_all
    simp [delete_prompt, hf, hu, hr]
  · intro h₁ hc hia
    have hf := firstByCategory_append_cons s₁ r s₂ c h₁ hc
    have hu := updateFirst_append_cons s₁ r s₂ c
      (fun x => { x with is_active := true, updated_at := t }) h₁ hc
    have hr : ({ r with is_active := true, updated_at := t } : Prompt)
        = { r with updated_at := t } := by
      cases r
      simp_all
    simp [activate_prompt, hf, hu, hr]

theorem deactivate_activate_idempotent_witness :
    (delete_prompt [wInactive] "missing" 4 = ([wInactive], Except.error ApiError.notFound) ∧
     activate_prompt [wInactive] "missing" 4 = ([wInactive], Except.error ApiError.notFound)) ∧
    delete_prompt ([] ++ wInactive :: []) "x" 4
      = ([] ++ { wInactive with updated_at := 4 } :: [],
         Except.ok "Prompt deactivated successfully") ∧
    activate_prompt ([] ++ wRecord :: []) "roadmap" 4
      = ([] ++ { wRecord with updated_at := 4 } :: [],
         Except.ok "Prompt activated successfully") :=
  ⟨(deactivate_activate_idempotent [wInactive] [] wInactive [] "missing" 4).1 (by decide),
   (deactivate_activate_idempotent [wInactive] [] wInactive [] "x" 4).2.1
     (by simp) (by decide) (by decide),
   (deactivate_activate_idempotent [wRecord] [] wRecord [] "roadmap" 4).2.2
     (by simp) (by decide) (by decide)⟩

/-- C5 counterexample: the inactive stored row wInactive is not returned
to its original field values (except updated_at) by deactivate followed
by activate: its is_active was false and ends true. -/
theorem deactivate_then_activate_counterexample :
    (activate_prompt (delete_prompt [wInactive] "x" 1).1 "x" 2).1.map Prompt.is_active
      = [true] ∧
    wInactive.is_active = false := by
  decide

/-- C5 (amended): for a stored row that is ACTIVE, deactivating at time
t1 and then activating at time t2 restores every field except
updated_at, and when the clock has advanced (t2 greater than the row's
updated_at) the new updated_at is strictly greater than before. -/
theorem deactivate_then_activate_roundtrip (s₁ : List Prompt) (r : Prompt)
    (s₂ : List Prompt) (c : String) (t₁ t₂ : Nat)
    (h₁ : ∀ x ∈ s₁, x.category ≠ c) (hc : r.category = c)
    (ha : r.is_active = true) (ht : r.updated_at < t₂) :
    ∃ r' : Prompt,
      (activate_prompt (delete_prompt (s₁ ++ r :: s₂) c t₁).1 c t₂).1 = s₁ ++ r' :: s₂ ∧
      r'.id = r.id ∧ r'.category = r.category ∧ r'.title = r.title ∧
      r'.prompt = r.prompt ∧ r'.is_active = r.is_active ∧
      r'.created_at = r.created_at ∧ r.updated_at < r'.updated_at := by
  have hf := firstByCategory_append_cons s₁ r s₂ c h₁ hc
  have hu := updateFirst_append_cons s₁ r s₂ c
    (fun x => { x with is_active := false, updated_at := t₁ }) h₁ hc
  have hdel : (delete_prompt (s₁ ++ r :: s₂) c t₁).1
      = s₁ ++ { r with is_active := false, updated_at := t₁ } :: s₂ := by
    simp [delete_prompt, hf, hu]
  have hf2 := firstByCategory_append_cons s₁
    ({ r with is_active := false, updated_at := t₁ }) s₂ c h₁ hc
  have hu2 := updateFirst_append_cons s₁
    ({ r with is_active := false, updated_at := t₁ }) s₂ c
    (fun x => { x with is_active := true, updated_at := t₂ }) h₁ hc
  refine ⟨{ r with is_active := true, updated_at := t₂ }, ?_, rfl, rfl, rfl, rfl,
          ha.symm, rfl, ht⟩
  rw [hdel]
  simp [activate_prompt, hf2, hu2]

theorem deactivate_then_activate_roundtrip_witness :
    ∃ r' : Prompt,
      (activate_prompt (delete_prompt ([] ++ wRecord :: []) "roadmap" 1).1 "roadmap" 2).1
        = [] ++ r' :: [] ∧
      r'.id = wRecord.id ∧ r'.category = wRecord.category ∧ r'.title = wRecord.title ∧
      r'.prompt = wRecord.prompt ∧ r'.is_active = wRecord.is_active ∧
      r'.created_at = wRecord.created_at ∧ wRecord.updated_at < r'.updated_at :=
  deactivate_then_activate_roundtrip [] wRecord [] "roadmap" 1 2
    (by simp) (by decide) (by decide) (by decide)

theorem create_prompt_timed_defaults_witness :
    ∃ rec : Prompt,
      create_prompt_timed [] { category := "x", title := "T", prompt := "P" } 1 7 7
        = ([] ++ [rec], Except.ok rec) ∧
      rec.id = 1 ∧ rec.is_active = true ∧
      rec.created_at = 7 ∧ rec.updated_at = 7 ∧
      (7 = 7 → rec.created_at = rec.updated_at) :=
  create_prompt_timed_defaults [] "x" "T" "P" 1 7 7 (by simp)

/-- C10: every request that fails with notFound or conflict leaves the
stored rows unchanged: each mutating handler raises before any mutation
or commit, and the category lookup handler only queries (it takes no
store to return).  The last conjunct records its notFound case. -/
theorem error_responses_leave_store_unchanged (s : Store) (c : String)
    (req : PromptCreate) (u : PromptUpdate) (newId now : Nat) :
    (∀ e, (create_prompt s req newId now).2 = Except.error e →
       (create_prompt s req newId now).1 = s)
  ∧ (∀ e, (update_prompt s c u now).2 = Except.error e →
       (update_prompt s c u now).1 = s)
  ∧ (∀ e, (delete_prompt s c now).2 = Except.error e →
       (delete_prompt s c now).1 = s)
  ∧ (∀ e, (activate_prompt s c now).2 = Except.error e →
       (activate_prompt s c now).1 = s)
  ∧ (firstByCategory s c = none →
       get_prompt_by_category s c = Except.error ApiError.notFound) := by
  refine ⟨?_, ?_, ?_, ?_, ?_⟩
  · intro e he
    cases h : firstByCategory s req.category with
    | none => simp [create_prompt, h] at he
    | some q => simp [create_prompt, h]
  · intro e he
    cases h : firstByCategory s c with
    | none => simp [update_prompt, h]
    | some q => simp [update_prompt, h] at he
  · intro e he
    cases h : firstByCategory s c with
    | none => simp [delete_prompt, h]
    | some q => simp [delete_prompt, h] at he
  · intro e he
    cases h : firstByCategory s c with
    | none => simp [activate_prompt, h]
    | some q => simp [activate_prompt, h] at he
  · intro h
    simp [get_prompt_by_category, h]

theorem error_responses_leave_store_unchanged_witness :
    (create_prompt [wRecord] wReq 2 5).1 = [wRecord] ∧
    (update_prompt [wRecord] "missing" {} 9).1 = [wRecord] ∧
    (delete_prompt [wRecord] "missing" 9).1 = [wRecord] ∧
    (activate_prompt [wRecord] "missing" 9).1 = [wRecord] ∧
    get_prompt_by_category [wRecord] "missing" = Except.error ApiError.notFound :=
  ⟨(error_responses_leave_store_unchanged [wRecord] "missing" wReq {} 2 5).1
     ApiError.conflict rfl,
   (error_responses_leave_store_unchanged [wRecord] "missing" wReq {} 2 9).2.1
     ApiError.notFound rfl,
   (error_responses_leave_store_unchanged [wRecord] "missing" wReq {} 2 9).2.2.1
     ApiError.notFound rfl,
   (error_responses_leave_store_unchanged [wRecord] "missing" wReq {} 2 9).2.2.2.1
     ApiError.notFound rfl,
   (error_responses_leave_store_unchanged [wRecord] "missing" wReq {} 2 9).2.2.2.2
     (by decide)⟩

/-- C3: run with the success path (no commit failure), seeding an empty
store yields exactly six rows whose categories are the six documented
ones in order; seeding any non-empty store, whatever its rows, changes
nothing. -/
theorem init_default_prompts_seeds_once (s : Store) (now : Nat) (commitFails : Bool) :
    ((init_default_prompts [] now false).1.length = 6 ∧
     (init_default_prompts [] now false).1.map Prompt.category
       = ["roadmap", "vulnerabilities", "teamAssignments", "newFeatures",
          "technicalDebt", "performance"])
  ∧ (s ≠ [] → (init_default_prompts s now commitFails).1 = s) := by
  refine ⟨⟨rfl, rfl⟩, ?_⟩
  intro h
  cases s with
  | nil => exact absurd rfl h
  | cons a as => simp [init_default_prompts]

theorem init_default_prompts_seeds_once_witness :
    ((init_default_prompts [] 3 false).1.length = 6 ∧
     (init_default_prompts [] 3 false).1.map Prompt.category
       = ["roadmap", "vulnerabilities", "teamAssignments", "newFeatures",
          "technicalDebt", "performance"])
  ∧ (init_default_prompts [wRecord] 3 true).1 = [wRecord] :=
  ⟨(init_default_prompts_seeds_once [wRecord] 3 true).1,
   (init_default_prompts_seeds_once [wRecord] 3 true).2 (by simp)⟩

/-- C9: when the seeding commit fails, the whole batch rolls back as a
unit, leaving the store exactly as it was (zero seeded rows, never a
partial subset), the error is logged, and the function still returns a
store, so startup keeps serving. -/
theorem init_default_prompts_failure_rollback (s : Store) (now : Nat) :
    (init_default_prompts s now true).1 = s ∧
    (init_default_prompts [] now true).2 = ["Error initializing default prompts"] := by
  constructor
  · cases s with
    | nil => rfl
    | cons a as => simp [init_default_prompts]
  · rfl

theorem assocSet_keys_mem (d : List (String × String × String)) (k c : String)
    (v : String × String) :
    c ∈ (assocSet d k v).map Prod.fst ↔ (c = k ∨ c ∈ d.map Prod.fst) := by
  induction d with
  | nil => simp [assocSet]
  | cons p0 rest ih =>
    obtain ⟨k0, v0⟩ := p0
    by_cases hk : (k0 == k) = true
    · have hk2 : k0 = k := by simpa using hk
      subst hk2
      simp [assocSet, hk]
    · simp [assocSet, hk, ih]
      tauto

theorem assocSet_mem (d : List (String × String × String)) (k : String)
    (v : String × String) (e : String × String × String) (h : e ∈ assocSet d k v) :
    (e.1 = k ∧ e.2 = v) ∨ e ∈ d := by
  induction d with
  | nil =>
    simp [assocSet] at h
    subst h
    exact Or.inl ⟨rfl, rfl⟩
  | cons p0 rest ih =>
    obtain ⟨k0, v0⟩ := p0
    by_cases hk : (k0 == k) = true
    · simp only [assocSet, hk, if_true, List.mem_cons] at h
      rcases h with h | h
      · subst h
        exact Or.inl ⟨by simpa using hk, rfl⟩
      · exact Or.inr (by simp [h])
    · simp only [assocSet, hk, if_false, Bool.false_eq_true, List.mem_cons] at h
      rcases h with h | h
      · exact Or.inr (by simp [h])
      · rcases ih h with h2 | h2
        · exact Or.inl h2
        · exact Or.inr (by simp [h2])

theorem get_prompts_fold_keys (l : List Prompt) (d : List (String × String × String))
    (c : String) :
    c ∈ (l.foldl (fun d r => assocSet d r.category (r.title, r.prompt)) d).map Prod.fst
      ↔ (c ∈ d.map Prod.fst ∨ ∃ r ∈ l, r.category = c) := by
  induction l generalizing d with
  | nil => simp
  | cons a l ih =>
    simp only [List.foldl_cons, ih, assocSet_keys_mem, List.mem_cons]
    constructor
    · rintro ((h | h) | h)
      · exact Or.inr ⟨a, Or.inl rfl, h.symm⟩
      · exact Or.inl h
      · obtain ⟨r, hr, hrc⟩ := h
        exact Or.inr ⟨r, Or.inr hr, hrc⟩
    · rintro (h | ⟨r, hr | hr, hrc⟩)
      · exact Or.inl (Or.inr h)
      · subst hr
        exact Or.inl (Or.inl hrc.symm)
      · exact Or.inr ⟨r, hr, hrc⟩

theorem get_prompts_fold_mem (l : List Prompt) (d : List (String × String × String))
    (e : String × String × String)
    (h : e ∈ l.foldl (fun d r => assocSet d r.category (r.title, r.prompt)) d) :
    (∃ r ∈ l, r.category = e.1 ∧ e.2 = (r.title, r.prompt)) ∨ e ∈ d := by
  induction l generalizing d with
  | nil => exact Or.inr (by simpa using h)
  | cons a l ih =>
    rcases ih (assocSet d a.category (a.title, a.prompt)) h with h2 | h2
    · obtain ⟨r, hr, h3⟩ := h2
      exact Or.inl ⟨r, by simp [hr], h3⟩
    · rcases assocSet_mem d a.category (a.title, a.prompt) e h2 with ⟨h3, h4⟩ | h3
      · exact Or.inl ⟨a, by simp, h3.symm, h4⟩
      · exact Or.inr h3

/-- C4: the keys of the GET /prompts mapping are exactly the categories
of stored rows with is_active true; every entry of the mapping is the
(title, prompt) pair of such an active row (so no inactive row ever
contributes an entry); and GET /prompts/all returns every stored row,
active and inactive. -/
theorem get_prompts_active_only (s : Store) :
    (∀ c : String, c ∈ (get_prompts s).map Prod.fst
        ↔ ∃ r ∈ s, r.is_active = true ∧ r.category = c)
  ∧ (∀ e ∈ get_prompts s,
        ∃ r ∈ s, r.is_active = true ∧ r.category = e.1 ∧ e.2 = (r.title, r.prompt))
  ∧ get_all_prompts s = s := by
  refine ⟨?_, ?_, rfl⟩
  · intro c
    rw [get_prompts, get_prompts_fold_keys]
    simp only [List.map_nil, List.not_mem_nil, false_or]
    constructor
    · rintro ⟨r, hr, hrc⟩
      have hm := List.mem_filter.mp hr
      exact ⟨r, hm.1, by simpa using hm.2, hrc⟩
    · rintro ⟨r, hr, ha, hrc⟩
      exact ⟨r, List.mem_filter.mpr ⟨hr, by simpa using ha⟩, hrc⟩
  · intro e he
    rw [get_prompts] at he
    rcases get_prompts_fold_mem _ _ _ he with ⟨r, hr, h1, h2⟩ | h
    · have hm := List.mem_filter.mp hr
      exact ⟨r, hm.1, by simpa using hm.2, h1, h2⟩
    · simp at h

theorem get_prompts_active_only_witness :
    ∃ r ∈ [wRecord, wInactive], r.is_active = true ∧
      r.category = (("roadmap", "T", "P") : String × String × String).1 ∧
      (("roadmap", "T", "P") : String × String × String).2 = (r.title, r.prompt) :=
  (get_prompts_active_only [wRecord, wInactive]).2.1 ("roadmap", "T", "P") (by decide)

/-- C6 counterexample: with an empty store at check time and a store
already holding category x at commit time, the create request ends in
the uncaught serverError of the uniqueness violation, not in conflict. -/
theorem create_prompt_committed_counterexample :
    (create_prompt_committed [] [wInactive] wReqX 2 3).2
      = Except.error ApiError.serverError ∧
    (create_prompt_committed [] [wInactive] wReqX 2 3).2
      ≠ Except.error ApiError.conflict :=
  ⟨rfl, fun h => ApiError.noConfusion (Except.error.inj h)⟩

/-- C6 (amended): when the existence check passes but the commit runs
against a store already holding the category, create_prompt has no
handler for the uniqueness violation, so the caller receives the
uncaught generic server error (HTTP 500), not conflict, and the failed
transaction leaves the store unchanged. -/
theorem create_prompt_committed_unhandled (sCheck sCommit : Store) (req : PromptCreate)
    (newId now : Nat) (h₁ : ∀ r ∈ sCheck, r.category ≠ req.category)
    (h₂ : ∃ r ∈ sCommit, r.category = req.category) :
    create_prompt_committed sCheck sCommit req newId now
      = (sCommit, Except.error ApiError.serverError) := by
  have hn := (firstByCategory_eq_none sCheck req.category).mpr h₁
  cases h : firstByCategory sCommit req.category with
  | none =>
    obtain ⟨r, hr, hrc⟩ := h₂
    exact absurd hrc ((firstByCategory_eq_none _ _).mp h r hr)
  | some q => simp [create_prompt_committed, hn, h]

theorem create_prompt_committed_unhandled_witness :
    create_prompt_committed [] [wInactive] wReqX 2 3
      = ([wInactive], Except.error ApiError.serverError) :=
  create_prompt_committed_unhandled [] [wInactive] wReqX 2 3 (by simp)
    ⟨wInactive, by simp, by decide⟩

end PromptApi
